import Mathlib

/-!
Verification of the simplefs metadata engine: the format tool (mkfs.c), the
mount loader and sync engine (super.c).  The definitions below are shallow
embeddings of the C functions; machine integers are modelled as Nat, with an
explicit reduction modulo 2^32 wherever a uint32_t subtraction may wrap.

The header simplefs.h is not part of the sources, so its constants are
handled as follows: the block size is fixed by the spec at 4096 bytes; the
number of inode records per block and the magic number are parameters of the
definitions (the theorems quantify over them).
-/

namespace SimpleFs

/-- Modelled from the spec: SIMPLEFS_BLOCK_SIZE from the missing header
simplefs.h; the spec fixes the block size at 4096 bytes. -/
def SIMPLEFS_BLOCK_SIZE : Nat := 4096

/-- Number of bitmap bits held by one block, 8 bits per byte. -/
def BITS_PER_BLOCK : Nat := SIMPLEFS_BLOCK_SIZE * 8

/-- Modulus of a 32-bit unsigned integer. -/
def U32_MOD : Nat := 4294967296

/-- Reduction of an integer into uint32_t range, as C unsigned arithmetic
does on overflow or underflow. -/
def u32ofInt (x : Int) : Nat := (x % (4294967296 : Int)).toNat

/-- Embedding of idiv_ceil from mkfs.c: ceiling division. -/
def idiv_ceil (a b : Nat) : Nat :=
  if a % b ≠ 0 then a / b + 1 else a / b

/-- The geometry values computed by write_superblock in mkfs.c. -/
structure Geometry where
  nr_blocks : Nat
  nr_inodes : Nat
  nr_istore_blocks : Nat
  nr_ifree_blocks : Nat
  nr_bfree_blocks : Nat
  nr_data_blocks : Nat
deriving DecidableEq

/-- Embedding of the geometry computation in write_superblock (mkfs.c).
ipb is SIMPLEFS_INODES_PER_BLOCK (its value lives in the missing header),
st_size is the device size in bytes.  All locals are uint32_t in the C
source; nr_data_blocks is computed with a uint32_t subtraction, embedded
here through u32ofInt.  Note the source subtracts only the three metadata
region sizes from nr_blocks, with no term for the superblock itself. -/
def mkGeometry (ipb st_size : Nat) : Geometry :=
  let nr_blocks := st_size / SIMPLEFS_BLOCK_SIZE % U32_MOD
  let m := nr_blocks % ipb
  let nr_inodes := if m ≠ 0 then (nr_blocks + (ipb - m)) % U32_MOD else nr_blocks
  let nr_istore_blocks := idiv_ceil nr_inodes ipb
  let nr_ifree_blocks := idiv_ceil nr_inodes (SIMPLEFS_BLOCK_SIZE * 8)
  let nr_bfree_blocks := idiv_ceil nr_blocks (SIMPLEFS_BLOCK_SIZE * 8)
  let nr_data_blocks :=
    u32ofInt ((nr_blocks : Int) - nr_istore_blocks - nr_ifree_blocks - nr_bfree_blocks)
  ⟨nr_blocks, nr_inodes, nr_istore_blocks, nr_ifree_blocks, nr_bfree_blocks, nr_data_blocks⟩

/-- The struct simplefs_sb_info record: eight 32-bit counters, in the
on-disk field order used by mkfs.c and super.c. -/
structure SbInfoRec where
  magic : Nat
  nr_blocks : Nat
  nr_inodes : Nat
  nr_istore_blocks : Nat
  nr_ifree_blocks : Nat
  nr_bfree_blocks : Nat
  nr_free_inodes : Nat
  nr_free_blocks : Nat
deriving DecidableEq

/-- Embedding of the sb->info record built by write_superblock (mkfs.c):
the geometry counters plus the two free counters, both computed with
uint32_t subtraction.  The magic argument stands for SIMPLEFS_MAGIC from
the missing header. -/
def write_superblock_info (magic ipb st_size : Nat) : SbInfoRec :=
  let g := mkGeometry ipb st_size
  { magic := magic
    nr_blocks := g.nr_blocks
    nr_inodes := g.nr_inodes
    nr_istore_blocks := g.nr_istore_blocks
    nr_ifree_blocks := g.nr_ifree_blocks
    nr_bfree_blocks := g.nr_bfree_blocks
    nr_free_inodes := u32ofInt ((g.nr_inodes : Int) - 1)
    nr_free_blocks := u32ofInt ((g.nr_data_blocks : Int) - 1) }

/-- Bit j of the inode bitmap region written by write_ifree_blocks (mkfs.c),
true meaning free.  The first block is written with word 0 equal to
0xfffffffffffffffe (bit 0 used, all other bits free) and every other word
0xff-filled; all later bitmap blocks are written entirely 0xff. -/
def mkfs_ifree_bit (j : Nat) : Bool :=
  if j / BITS_PER_BLOCK = 0 then decide (j % BITS_PER_BLOCK ≠ 0) else true

/-- The nr_used count of write_bfree_blocks (mkfs.c): inode store blocks,
inode bitmap blocks, block bitmap blocks, plus 2 (superblock and the data
block of the root directory). -/
def nrUsed (g : Geometry) : Nat :=
  g.nr_istore_blocks + g.nr_ifree_blocks + g.nr_bfree_blocks + 2

/-- Bit j of the block bitmap region written by write_bfree_blocks (mkfs.c),
true meaning free.  The bit-clearing loop runs only over the single block
buffer that is written as the first bitmap block (the source comment states
the assumption that the used run does not go further than the first block;
past the end of that buffer the C loop would in fact overrun it), so within
the first block a bit is used exactly when its offset is below nu, and every
later bitmap block is written entirely 0xff. -/
def mkfs_bfree_bit (nu j : Nat) : Bool :=
  if j / BITS_PER_BLOCK = 0 then decide (nu ≤ j % BITS_PER_BLOCK) else true

/-- Linear scan for a free (true) bit: fuel-indexed helper starting at a
given index. -/
def scanFree (bit : Nat → Bool) : Nat → Nat → Option Nat
  | _, 0 => none
  | start, fuel + 1 => if bit start then some start else scanFree bit (start + 1) fuel

/-- Modelled from the spec: find_first_free, the lowest-index-first scan over
the first n bits of a bitmap, returning the lowest free bit or none.  The
allocator that performs this scan is outside the given sources; the spec
defines it as a linear lowest-available-index-first scan. -/
def findFirstFree (bit : Nat → Bool) (n : Nat) : Option Nat :=
  scanFree bit 0 n

/-- Error kinds of the modelled operations: invalidMagic stands for the
-EINVAL return of simplefs_fill_super on a magic mismatch, ioError for -EIO,
sizingError for the undersized-device failure of the mkfs main routine. -/
inductive FsErr where
  | invalidMagic
  | ioError
  | sizingError
deriving DecidableEq

/-- Host byte order of the machine running the mount loader. -/
inductive Endian where
  | le
  | be
deriving DecidableEq

/-- Value of four consecutive stored bytes read back as one 32-bit integer
in the given host byte order, b0 being the byte at the lowest address. -/
def read32 : Endian → Nat → Nat → Nat → Nat → Nat
  | Endian.le, b0, b1, b2, b3 => b0 + 256 * b1 + 65536 * b2 + 16777216 * b3
  | Endian.be, b0, b1, b2, b3 => b3 + 256 * b2 + 65536 * b1 + 16777216 * b0

/-- Field k of the superblock record in its on-disk order, for the codec. -/
def sbField (sb : SbInfoRec) : Nat → Nat
  | 0 => sb.magic
  | 1 => sb.nr_blocks
  | 2 => sb.nr_inodes
  | 3 => sb.nr_istore_blocks
  | 4 => sb.nr_ifree_blocks
  | 5 => sb.nr_bfree_blocks
  | 6 => sb.nr_free_inodes
  | 7 => sb.nr_free_blocks
  | _ => 0

/-- Byte n of the superblock block written by write_superblock (mkfs.c):
each field is stored through htole32, so field k occupies bytes 4k..4k+3 in
little-endian order; the remaining 4064 bytes of the block are the zeroed
padding of struct superblock. -/
def encodeSbBlock (sb : SbInfoRec) (n : Nat) : Nat :=
  if n < 32 then sbField sb (n / 4) / 256 ^ (n % 4) % 256 else 0

/-- The record obtained by the mount loader from a superblock block: the C
code overlays struct simplefs_sb_info on the buffer and copies the fields
directly, so each 32-bit field is read back in host byte order. -/
def decodeSbBlock (e : Endian) (blk : Nat → Nat) : SbInfoRec :=
  { magic := read32 e (blk 0) (blk 1) (blk 2) (blk 3)
    nr_blocks := read32 e (blk 4) (blk 5) (blk 6) (blk 7)
    nr_inodes := read32 e (blk 8) (blk 9) (blk 10) (blk 11)
    nr_istore_blocks := read32 e (blk 12) (blk 13) (blk 14) (blk 15)
    nr_ifree_blocks := read32 e (blk 16) (blk 17) (blk 18) (blk 19)
    nr_bfree_blocks := read32 e (blk 20) (blk 21) (blk 22) (blk 23)
    nr_free_inodes := read32 e (blk 24) (blk 25) (blk 26) (blk 27)
    nr_free_blocks := read32 e (blk 28) (blk 29) (blk 30) (blk 31) }

/-- A disk at byte granularity: block index to byte offset to byte value. -/
def DiskBytes : Type := Nat → Nat → Nat

/-- Embedding of the superblock step of simplefs_fill_super (super.c): read
block 0, overlay the record, compare the stored magic with SIMPLEFS_MAGIC
(here the parameter magic) and fail with -EINVAL before any filesystem state
is allocated when they differ; otherwise the counters are copied into the
freshly allocated in-memory superblock mirror. -/
def fillSuperStart (e : Endian) (magic : Nat) (disk : DiskBytes) : Except FsErr SbInfoRec :=
  let csb := decodeSbBlock e (disk 0)
  if csb.magic ≠ magic then Except.error FsErr.invalidMagic
  else Except.ok csb

/-- The image produced by a successful run of the mkfs tool, as far as this
development models it: the superblock record and the two bitmap regions. -/
structure Image where
  sb : SbInfoRec
  ifreeBit : Nat → Bool
  bfreeBit : Nat → Bool

/-- Embedding of the main routine of mkfs.c after the size query: the device
is rejected with a sizing error when its byte size is at most
100 * SIMPLEFS_BLOCK_SIZE, before anything is written; otherwise the
superblock, the inode bitmap and the block bitmap are produced. -/
def mkfsRun (magic ipb st_size : Nat) : Except FsErr Image :=
  if st_size ≤ 100 * SIMPLEFS_BLOCK_SIZE then Except.error FsErr.sizingError
  else
    let g := mkGeometry ipb st_size
    Except.ok ⟨write_superblock_info magic ipb st_size, mkfs_ifree_bit, mkfs_bfree_bit (nrUsed g)⟩

/-- A disk at bit granularity: block index to bit offset inside the block to
bit value, true meaning a free bit in bitmap blocks.  Used for the sync and
reload round trip, where the byte-wise memcpy of whole blocks is equivalent
to this bit-wise view. -/
def DiskBits : Type := Nat → Nat → Bool

/-- Bit k of the 32-bit value x, little-endian within the stored bytes. -/
def bitOfNat (x k : Nat) : Bool := decide (x / 2 ^ k % 2 = 1)

/-- The in-memory superblock mirror of super.c, struct simplefs_sb_info plus
the two bitmap pointers, the bitmaps viewed as flat bit vectors with true
meaning free. -/
structure SbiMem where
  nr_blocks : Nat
  nr_inodes : Nat
  nr_istore_blocks : Nat
  nr_ifree_blocks : Nat
  nr_bfree_blocks : Nat
  nr_free_inodes : Nat
  nr_free_blocks : Nat
  ifree_bitmap : Nat → Bool
  bfree_bitmap : Nat → Bool

/-- Field k of the in-memory mirror that simplefs_sync_fs copies into the
on-disk superblock; field 0 (the magic) is not copied and keeps its on-disk
value. -/
def syncField (sbi : SbiMem) : Nat → Nat
  | 1 => sbi.nr_blocks
  | 2 => sbi.nr_inodes
  | 3 => sbi.nr_istore_blocks
  | 4 => sbi.nr_ifree_blocks
  | 5 => sbi.nr_bfree_blocks
  | 6 => sbi.nr_free_inodes
  | 7 => sbi.nr_free_blocks
  | _ => 0

/-- Content of block 0 after the superblock flush of simplefs_sync_fs: the
magic bytes (bits 0..31) and everything past the eight fields keep their old
content; the seven counters are overwritten in place (host little-endian,
field k at bits 32k..32k+31). -/
def syncSbBlock (sbi : SbiMem) (old : Nat → Bool) (b : Nat) : Bool :=
  if b < 32 then old b
  else if b < 256 then bitOfNat (syncField sbi (b / 32)) (b % 32)
  else old b

/-- Embedding of simplefs_sync_fs (super.c): block 0 receives the superblock
flush; for i below nr_ifree_blocks, block nr_istore_blocks + i + 1 receives
block i of the in-memory inode bitmap; for i below nr_bfree_blocks, block
nr_istore_blocks + nr_ifree_blocks + i + 1 receives block i of the in-memory
block bitmap; every other block is untouched. -/
def simplefs_sync_fs (sbi : SbiMem) (disk : DiskBits) : DiskBits := fun idx =>
  if idx = 0 then syncSbBlock sbi (disk 0)
  else if sbi.nr_istore_blocks + 1 ≤ idx ∧ idx < sbi.nr_istore_blocks + 1 + sbi.nr_ifree_blocks then
    fun b => sbi.ifree_bitmap ((idx - (sbi.nr_istore_blocks + 1)) * BITS_PER_BLOCK + b)
  else if sbi.nr_istore_blocks + sbi.nr_ifree_blocks + 1 ≤ idx ∧
          idx < sbi.nr_istore_blocks + sbi.nr_ifree_blocks + 1 + sbi.nr_bfree_blocks then
    fun b => sbi.bfree_bitmap ((idx - (sbi.nr_istore_blocks + sbi.nr_ifree_blocks + 1)) * BITS_PER_BLOCK + b)
  else disk idx

/-- The inode bitmap reconstructed by simplefs_fill_super (super.c): for i
below nr_ifree_blocks the loader reads disk block nr_istore_blocks + i + 1
into the in-memory region at offset i blocks, so flat bit j comes from disk
block nr_istore_blocks + j / BITS_PER_BLOCK + 1 at offset j mod
BITS_PER_BLOCK. -/
def load_ifree_bitmap (nr_istore : Nat) (disk : DiskBits) (j : Nat) : Bool :=
  disk (nr_istore + j / BITS_PER_BLOCK + 1) (j % BITS_PER_BLOCK)

/-- The block bitmap reconstructed by simplefs_fill_super (super.c): flat bit
j comes from disk block nr_istore + nr_ifree + j / BITS_PER_BLOCK + 1 at
offset j mod BITS_PER_BLOCK. -/
def load_bfree_bitmap (nr_istore nr_ifree : Nat) (disk : DiskBits) (j : Nat) : Bool :=
  disk (nr_istore + nr_ifree + j / BITS_PER_BLOCK + 1) (j % BITS_PER_BLOCK)

/-- Marking bit i of a bitmap as used: the bit becomes 0 (false), all other
bits keep their value. -/
def set_bit_used (bm : Nat → Bool) (i : Nat) (j : Nat) : Bool :=
  if j = i then false else bm j

/-- The in-memory mirror with bit i of its inode bitmap marked used. -/
def markIfreeUsed (sbi : SbiMem) (i : Nat) : SbiMem :=
  { sbi with ifree_bitmap := set_bit_used sbi.ifree_bitmap i }

/-- The in-memory mirror with bit i of its block bitmap marked used. -/
def markBfreeUsed (sbi : SbiMem) (i : Nat) : SbiMem :=
  { sbi with bfree_bitmap := set_bit_used sbi.bfree_bitmap i }

/-- The on-disk inode record, struct simplefs_inode. -/
structure DiskInode where
  i_mode : Nat
  i_uid : Nat
  i_gid : Nat
  i_size : Nat
  i_ctime : Nat
  i_atime : Nat
  i_mtime : Nat
  i_blocks : Nat
  i_nlink : Nat
  ei_block : Nat
  i_data : List Nat
deriving DecidableEq

/-- The in-memory inode handed to simplefs_write_inode: the generic VFS
fields together with the simplefs specific ei_block and i_data of struct
simplefs_inode_info. -/
structure VfsInode where
  i_ino : Nat
  i_mode : Nat
  i_uid : Nat
  i_gid : Nat
  i_size : Nat
  i_ctime : Nat
  i_atime : Nat
  i_mtime : Nat
  i_blocks : Nat
  i_nlink : Nat
  ei_block : Nat
  i_data : List Nat
deriving DecidableEq

/-- The inode store on disk: block index to slot inside the block to inode
record. -/
def InodeDisk : Type := Nat → Nat → DiskInode

/-- Embedding of simplefs_write_inode (super.c): the result is the returned
status, the inode store after the call, and the list of block indices the
call read or wrote.  When the inode number is at least nr_inodes the
function returns 0 at once, touching no block; otherwise it reads block
ino / ipb + 1, overwrites slot ino mod ipb with the in-memory fields, and
writes the block back. -/
def simplefs_write_inode (ipb nr_inodes : Nat) (v : VfsInode) (disk : InodeDisk) :
    Int × InodeDisk × List Nat :=
  let ino := v.i_ino
  let inode_block := ino / ipb + 1
  let inode_shift := ino % ipb
  if nr_inodes ≤ ino then (0, disk, [])
  else
    let d : InodeDisk := fun blk slot =>
      if blk = inode_block ∧ slot = inode_shift then
        { i_mode := v.i_mode, i_uid := v.i_uid, i_gid := v.i_gid, i_size := v.i_size
          i_ctime := v.i_ctime, i_atime := v.i_atime, i_mtime := v.i_mtime
          i_blocks := v.i_blocks, i_nlink := v.i_nlink, ei_block := v.ei_block
          i_data := v.i_data }
      else disk blk slot
    (0, d, [inode_block])

/-! Helper lemmas shared by several developments below. -/

theorem u32ofInt_lt (x : Int) : u32ofInt x < 4294967296 := by
  unfold u32ofInt
  omega

theorem u32ofInt_sub_one (n : Nat) (h1 : 1 ≤ n) (h2 : n < 4294967296) :
    u32ofInt ((n : Int) - 1) = n - 1 := by
  unfold u32ofInt
  omega

theorem mkGeometry_nr_inodes_lt (ipb s : Nat) : (mkGeometry ipb s).nr_inodes < 4294967296 := by
  simp only [mkGeometry, U32_MOD]
  split <;> omega

theorem mkGeometry_nr_data_lt (ipb s : Nat) : (mkGeometry ipb s).nr_data_blocks < 4294967296 := by
  simp only [mkGeometry]
  exact u32ofInt_lt _

theorem scanFree_eq_some (bit : Nat → Bool) (k : Nat) :
    ∀ fuel start, start ≤ k → k < start + fuel →
      (∀ j, start ≤ j → j < k → bit j = false) → bit k = true →
      scanFree bit start fuel = some k := by
  intro fuel
  induction fuel with
  | zero => intro start h1 h2 _ _; omega
  | succ n ih =>
    intro start h1 h2 hbelow hk
    by_cases hs : start = k
    · subst hs
      simp [scanFree, hk]
    · have hfalse : bit start = false := hbelow start le_rfl (by omega)
      simp only [scanFree, hfalse, Bool.false_eq_true, if_false]
      exact ih (start + 1) (by omega) (by omega) (fun j hj1 hj2 => hbelow j (by omega) hj2) hk

theorem findFirstFree_eq (bit : Nat → Bool) (k n : Nat) (hkn : k < n)
    (hbelow : ∀ j, j < k → bit j = false) (hk : bit k = true) :
    findFirstFree bit n = some k :=
  scanFree_eq_some bit k n 0 (Nat.zero_le _) (by omega) (fun j _ hj => hbelow j hj) hk

theorem load_ifree_sync (sbi : SbiMem) (disk : DiskBits) (j : Nat)
    (hj : j < sbi.nr_ifree_blocks * BITS_PER_BLOCK) :
    load_ifree_bitmap sbi.nr_istore_blocks (simplefs_sync_fs sbi disk) j = sbi.ifree_bitmap j := by
  have hB : BITS_PER_BLOCK = 32768 := rfl
  rw [hB] at hj
  simp only [load_ifree_bitmap, simplefs_sync_fs, hB]
  rw [if_neg (show ¬(sbi.nr_istore_blocks + j / 32768 + 1 = 0) by omega)]
  rw [if_pos (show sbi.nr_istore_blocks + 1 ≤ sbi.nr_istore_blocks + j / 32768 + 1 ∧
      sbi.nr_istore_blocks + j / 32768 + 1 < sbi.nr_istore_blocks + 1 + sbi.nr_ifree_blocks by
    constructor <;> omega)]
  congr 1
  omega

theorem load_bfree_sync (sbi : SbiMem) (disk : DiskBits) (j : Nat)
    (hj : j < sbi.nr_bfree_blocks * BITS_PER_BLOCK) :
    load_bfree_bitmap sbi.nr_istore_blocks sbi.nr_ifree_blocks (simplefs_sync_fs sbi disk) j
      = sbi.bfree_bitmap j := by
  have hB : BITS_PER_BLOCK = 32768 := rfl
  rw [hB] at hj
  simp only [load_bfree_bitmap, simplefs_sync_fs, hB]
  rw [if_neg (show ¬(sbi.nr_istore_blocks + sbi.nr_ifree_blocks + j / 32768 + 1 = 0) by omega)]
  rw [if_neg (show ¬(sbi.nr_istore_blocks + 1 ≤ sbi.nr_istore_blocks + sbi.nr_ifree_blocks + j / 32768 + 1 ∧
      sbi.nr_istore_blocks + sbi.nr_ifree_blocks + j / 32768 + 1 < sbi.nr_istore_blocks + 1 + sbi.nr_ifree_blocks) by
    intro hc
    omega)]
  rw [if_pos (show sbi.nr_istore_blocks + sbi.nr_ifree_blocks + 1 ≤
        sbi.nr_istore_blocks + sbi.nr_ifree_blocks + j / 32768 + 1 ∧
      sbi.nr_istore_blocks + sbi.nr_ifree_blocks + j / 32768 + 1 <
        sbi.nr_istore_blocks + sbi.nr_ifree_blocks + 1 + sbi.nr_bfree_blocks by
    constructor <;> omega)]
  congr 1
  omega

/-- C1: evaluation of the geometry computation at a 101-block device (size
413696 bytes, 56 inode records per block).  The block counts sum with the
data-block count and the one superblock block to total_blocks + 1, not to
total_blocks: write_superblock in mkfs.c computes nr_data_blocks without
subtracting the superblock block, so the data-block count written to the
superblock exceeds by one the count the spec requires. -/
theorem c1_geometry_sum_off_by_one :
    (mkGeometry 56 413696).nr_blocks = 101 ∧
    1 + (mkGeometry 56 413696).nr_istore_blocks + (mkGeometry 56 413696).nr_ifree_blocks +
      (mkGeometry 56 413696).nr_bfree_blocks + (mkGeometry 56 413696).nr_data_blocks = 102 := by
  decide

/-- C2: after a successful format the superblock records
nr_free_inodes = nr_inodes - 1 and nr_free_blocks = nr_data_blocks - 1,
where the counts are the ones of the geometry record computed by
write_superblock (note that per C1 that nr_data_blocks itself counts the
superblock block). -/
theorem c2_free_counters (magic ipb st_size : Nat)
    (hsize : 100 * SIMPLEFS_BLOCK_SIZE < st_size)
    (hinodes : 1 ≤ (mkGeometry ipb st_size).nr_inodes)
    (hdata : 1 ≤ (mkGeometry ipb st_size).nr_data_blocks) :
    (write_superblock_info magic ipb st_size).nr_free_inodes
        = (mkGeometry ipb st_size).nr_inodes - 1 ∧
    (write_superblock_info magic ipb st_size).nr_free_blocks
        = (mkGeometry ipb st_size).nr_data_blocks - 1 := by
  constructor
  · simp only [write_superblock_info]
    exact u32ofInt_sub_one _ hinodes (mkGeometry_nr_inodes_lt ipb st_size)
  · simp only [write_superblock_info]
    exact u32ofInt_sub_one _ hdata (mkGeometry_nr_data_lt ipb st_size)

/-- C2 witness: the free counters at a concrete 101-block device with 56
inode records per block. -/
theorem c2_free_counters_witness :
    (write_superblock_info 0 56 413696).nr_free_inodes
        = (mkGeometry 56 413696).nr_inodes - 1 ∧
    (write_superblock_info 0 56 413696).nr_free_blocks
        = (mkGeometry 56 413696).nr_data_blocks - 1 :=
  c2_free_counters 0 56 413696 (by decide) (by decide) (by decide)

/-- C3 counterexample: a device of 7515750400 bytes with 56 inode records
per block yields a used run of nrUsed = 32881 bits, longer than the 32768
bits of one bitmap block, and a block bitmap of 56 blocks; yet bit 32768,
which lies inside the used run, is written free: write_bfree_blocks fills
the used run only into the first bitmap block and writes every later bitmap
block entirely free, so the remaining count is not carried across the block
boundary as the claim states. -/
theorem c3_used_run_not_carried :
    32768 < nrUsed (mkGeometry 56 7515750400) ∧
    2 ≤ (mkGeometry 56 7515750400).nr_bfree_blocks ∧
    mkfs_bfree_bit (nrUsed (mkGeometry 56 7515750400)) 32768 = true := by
  decide

/-- C3 amended: for every geometry whose used run of
N = 1 + inode_table_blocks + inode_bitmap_blocks + block_bitmap_blocks + 1
bits fits inside one bitmap block, the block bitmap written at format time
has exactly its first N bits used and every other bit of the region free;
for longer runs the code truncates the run to the first bitmap block. -/
theorem c3_first_block_used_run (ipb st_size j : Nat)
    (hN : nrUsed (mkGeometry ipb st_size) ≤ BITS_PER_BLOCK)
    (hj : j < (mkGeometry ipb st_size).nr_bfree_blocks * BITS_PER_BLOCK) :
    (mkfs_bfree_bit (nrUsed (mkGeometry ipb st_size)) j = false ↔
      j < nrUsed (mkGeometry ipb st_size)) := by
  have hB : BITS_PER_BLOCK = 32768 := rfl
  rw [hB] at hN hj
  unfold mkfs_bfree_bit
  rw [hB]
  by_cases h : j / 32768 = 0
  · rw [if_pos h, decide_eq_false_iff_not]
    omega
  · rw [if_neg h]
    exact iff_of_false (by simp) (by omega)

/-- C3 witness: the amended statement at the 101-block device, bit 3 of the
block bitmap (used, as 3 is below the run length 6). -/
theorem c3_first_block_used_run_witness :
    (mkfs_bfree_bit (nrUsed (mkGeometry 56 413696)) 3 = false ↔
      3 < nrUsed (mkGeometry 56 413696)) :=
  c3_first_block_used_run 56 413696 3 (by decide) (by decide)

/-- C4 counterexample: at the 101-block device with 56 inode records per
block, the logical inode count is 112 and the inode bitmap region holds
32768 bits, so bit 112 is a padding bit; write_ifree_blocks initializes it
to 1 (free), not 0 (used) as the claim states.  Likewise the logical block
count is 101 and bit 101 of the block bitmap region, a padding bit, is
written free. -/
theorem c4_padding_bits_free :
    (mkGeometry 56 413696).nr_inodes = 112 ∧
    (mkGeometry 56 413696).nr_ifree_blocks * BITS_PER_BLOCK = 32768 ∧
    mkfs_ifree_bit 112 = true ∧
    (mkGeometry 56 413696).nr_blocks = 101 ∧
    (mkGeometry 56 413696).nr_bfree_blocks * BITS_PER_BLOCK = 32768 ∧
    mkfs_bfree_bit (nrUsed (mkGeometry 56 413696)) 101 = true := by
  decide

/-- C4 amended: in both bitmaps produced by format, every padding bit beyond
the logical count is initialized as free (bit value 1), not used; keeping
find_first_free away from indices at or beyond the logical count is
therefore up to the scan bound, not to the initialization.  For the block
bitmap the statement assumes the used run does not reach past the logical
block count, which holds for every real geometry. -/
theorem c4_padding_initialized_free (ipb st_size j k : Nat)
    (hj1 : (mkGeometry ipb st_size).nr_inodes ≤ j)
    (hj2 : j < (mkGeometry ipb st_size).nr_ifree_blocks * BITS_PER_BLOCK)
    (hj0 : 1 ≤ (mkGeometry ipb st_size).nr_inodes)
    (hk1 : (mkGeometry ipb st_size).nr_blocks ≤ k)
    (hk2 : k < (mkGeometry ipb st_size).nr_bfree_blocks * BITS_PER_BLOCK)
    (hku : nrUsed (mkGeometry ipb st_size) ≤ (mkGeometry ipb st_size).nr_blocks) :
    mkfs_ifree_bit j = true ∧
    mkfs_bfree_bit (nrUsed (mkGeometry ipb st_size)) k = true := by
  have hB : BITS_PER_BLOCK = 32768 := rfl
  rw [hB] at hj2 hk2
  constructor
  · unfold mkfs_ifree_bit
    rw [hB]
    by_cases h : j / 32768 = 0
    · rw [if_pos h, decide_eq_true_eq]
      omega
    · rw [if_neg h]
  · unfold mkfs_bfree_bit
    rw [hB]
    by_cases h : k / 32768 = 0
    · rw [if_pos h, decide_eq_true_eq]
      omega
    · rw [if_neg h]

/-- C4 witness: the amended statement at the 101-block device, padding bit
112 of the inode bitmap and padding bit 101 of the block bitmap. -/
theorem c4_padding_initialized_free_witness :
    mkfs_ifree_bit 112 = true ∧
    mkfs_bfree_bit (nrUsed (mkGeometry 56 413696)) 112 = true :=
  c4_padding_initialized_free 56 413696 112 112 (by decide) (by decide) (by decide)
    (by decide) (by decide) (by decide)

/-- C5 counterexample: at the 101-block device with 56 inode records per
block the first data block has index 1 + 2 + 1 + 1 = 5, but the
lowest-index-first free-bit scan over the block bitmap written by format
returns 6, because the first data block itself is pre-allocated to the root
directory and marked used. -/
theorem c5_block_scan_off_by_one :
    findFirstFree (mkfs_bfree_bit (nrUsed (mkGeometry 56 413696)))
        ((mkGeometry 56 413696).nr_bfree_blocks * BITS_PER_BLOCK) = some 6 ∧
    1 + (mkGeometry 56 413696).nr_istore_blocks + (mkGeometry 56 413696).nr_ifree_blocks +
      (mkGeometry 56 413696).nr_bfree_blocks = 5 := by
  decide

/-- C5 amended: immediately after format, the lowest-index-first free-bit
scan over the inode bitmap returns index 1 (for every geometry with at
least one inode-bitmap block), and, for every geometry whose used run fits
inside one bitmap block and whose block-bitmap region extends beyond the
run, the same scan over the block bitmap returns the index one past the
first data block, that is
1 + inode_table_blocks + inode_bitmap_blocks + block_bitmap_blocks + 1,
since the first data block holds the root directory and is marked used.
For larger used runs the written bitmap is truncated to the first block
(see C3) and the scan returns bit 32768 instead. -/
theorem c5_first_free_after_format (ipb st_size : Nat)
    (hif : 1 ≤ (mkGeometry ipb st_size).nr_ifree_blocks)
    (hN : nrUsed (mkGeometry ipb st_size) ≤ BITS_PER_BLOCK)
    (hNr : nrUsed (mkGeometry ipb st_size) < (mkGeometry ipb st_size).nr_bfree_blocks * BITS_PER_BLOCK) :
    findFirstFree mkfs_ifree_bit ((mkGeometry ipb st_size).nr_ifree_blocks * BITS_PER_BLOCK)
        = some 1 ∧
    findFirstFree (mkfs_bfree_bit (nrUsed (mkGeometry ipb st_size)))
        ((mkGeometry ipb st_size).nr_bfree_blocks * BITS_PER_BLOCK)
      = some (1 + (mkGeometry ipb st_size).nr_istore_blocks +
          (mkGeometry ipb st_size).nr_ifree_blocks + (mkGeometry ipb st_size).nr_bfree_blocks + 1) := by
  have hB : BITS_PER_BLOCK = 32768 := rfl
  rw [hB] at hN hNr ⊢
  constructor
  · apply findFirstFree_eq
    · omega
    · intro j hj
      have hj0 : j = 0 := by omega
      subst hj0
      decide
    · decide
  · have harg : 1 + (mkGeometry ipb st_size).nr_istore_blocks +
        (mkGeometry ipb st_size).nr_ifree_blocks + (mkGeometry ipb st_size).nr_bfree_blocks + 1
        = nrUsed (mkGeometry ipb st_size) := by
      unfold nrUsed
      omega
    rw [harg]
    apply findFirstFree_eq
    · exact hNr
    · intro j hj
      unfold mkfs_bfree_bit
      rw [hB]
      rw [if_pos (by omega)]
      rw [decide_eq_false_iff_not]
      omega
    · unfold mkfs_bfree_bit
      rw [hB]
      by_cases h : nrUsed (mkGeometry ipb st_size) / 32768 = 0
      · rw [if_pos h, decide_eq_true_eq]
        omega
      · rw [if_neg h]

/-- C5 witness: the amended statement at the 101-block device. -/
theorem c5_first_free_after_format_witness :
    findFirstFree mkfs_ifree_bit ((mkGeometry 56 413696).nr_ifree_blocks * BITS_PER_BLOCK)
        = some 1 ∧
    findFirstFree (mkfs_bfree_bit (nrUsed (mkGeometry 56 413696)))
        ((mkGeometry 56 413696).nr_bfree_blocks * BITS_PER_BLOCK)
      = some (1 + (mkGeometry 56 413696).nr_istore_blocks +
          (mkGeometry 56 413696).nr_ifree_blocks + (mkGeometry 56 413696).nr_bfree_blocks + 1) :=
  c5_first_free_after_format 56 413696 (by decide) (by decide) (by decide)

/-- C6 counterexample: the mount loader copies the superblock fields in host
byte order, without a little-endian conversion, so the round trip is not
independent of host byte order: decoding on a big-endian host a block
encoded by mkfs (always little-endian via htole32) yields a different
record already for nr_blocks = 1. -/
theorem c6_host_order_mismatch :
    decodeSbBlock Endian.be (encodeSbBlock ⟨0, 1, 0, 0, 0, 0, 0, 0⟩)
      ≠ (⟨0, 1, 0, 0, 0, 0, 0, 0⟩ : SbInfoRec) := by
  decide

/-- C6 amended: encoding a superblock record to its on-disk byte layout and
decoding that layout as the mount loader does yields a record with all
eight counter fields identical to the original, for every field combination
in 32-bit range, on a little-endian host; the loader reads fields in host
byte order (no le32toh), so the identity does not extend to big-endian
hosts. -/
theorem c6_roundtrip_little_endian (sb : SbInfoRec)
    (h0 : sb.magic < U32_MOD) (h1 : sb.nr_blocks < U32_MOD)
    (h2 : sb.nr_inodes < U32_MOD) (h3 : sb.nr_istore_blocks < U32_MOD)
    (h4 : sb.nr_ifree_blocks < U32_MOD) (h5 : sb.nr_bfree_blocks < U32_MOD)
    (h6 : sb.nr_free_inodes < U32_MOD) (h7 : sb.nr_free_blocks < U32_MOD) :
    decodeSbBlock Endian.le (encodeSbBlock sb) = sb := by
  obtain ⟨m, nb, ni, nis, nif, nbf, nfi, nfb⟩ := sb
  simp only [U32_MOD] at h0 h1 h2 h3 h4 h5 h6 h7
  simp only [decodeSbBlock, encodeSbBlock, read32, sbField, SbInfoRec.mk.injEq]
  norm_num
  omega

/-- C6 witness: the little-endian round trip at one concrete record. -/
theorem c6_roundtrip_little_endian_witness :
    decodeSbBlock Endian.le (encodeSbBlock ⟨1, 2, 3, 4, 5, 6, 7, 8⟩)
      = (⟨1, 2, 3, 4, 5, 6, 7, 8⟩ : SbInfoRec) :=
  c6_roundtrip_little_endian ⟨1, 2, 3, 4, 5, 6, 7, 8⟩ (by decide) (by decide) (by decide)
    (by decide) (by decide) (by decide) (by decide) (by decide)

/-- C7: if the four stored bytes of the magic field of block 0 differ in any
way from the little-endian encoding of the expected magic constant, the
superblock step of the mount loader fails with the invalid-magic error
(-EINVAL) and returns no in-memory filesystem state, so mount never
proceeds past the superblock step.  Host little-endian, matching the
mkfs encoding. -/
theorem c7_invalid_magic_fails (magic : Nat) (disk : DiskBytes)
    (hm : magic < U32_MOD)
    (hb : ∀ i, i < 4 → disk 0 i < 256)
    (hne : ¬(disk 0 0 = magic % 256 ∧ disk 0 1 = magic / 256 % 256 ∧
             disk 0 2 = magic / 65536 % 256 ∧ disk 0 3 = magic / 16777216 % 256)) :
    fillSuperStart Endian.le magic disk = Except.error FsErr.invalidMagic := by
  have hb0 := hb 0 (by omega)
  have hb1 := hb 1 (by omega)
  have hb2 := hb 2 (by omega)
  have hb3 := hb 3 (by omega)
  simp only [U32_MOD] at hm
  have hdec : (decodeSbBlock Endian.le (disk 0)).magic ≠ magic := by
    simp only [decodeSbBlock, read32]
    omega
  simp only [fillSuperStart]
  rw [if_pos hdec]

/-- C7 witness: a disk whose magic bytes are all zero fails the mount with
the invalid-magic error for the expected magic 1. -/
theorem c7_invalid_magic_fails_witness :
    fillSuperStart Endian.le 1 (fun _ _ => 0) = Except.error FsErr.invalidMagic :=
  c7_invalid_magic_fails 1 (fun _ _ => 0) (by decide)
    (fun _ _ => by show (0 : Nat) < 256; decide) (by decide)

/-- C8: the format tool rejects a device of exactly 100 blocks with the
sizing error before writing anything, accepts a device of 101 blocks, and
in general the size check passes for a device of s blocks exactly when
s is strictly greater than 100. -/
theorem c8_size_check (magic ipb : Nat) :
    mkfsRun magic ipb (100 * SIMPLEFS_BLOCK_SIZE) = Except.error FsErr.sizingError ∧
    (∃ img, mkfsRun magic ipb (101 * SIMPLEFS_BLOCK_SIZE) = Except.ok img) ∧
    (∀ s : Nat, (∃ img, mkfsRun magic ipb (s * SIMPLEFS_BLOCK_SIZE) = Except.ok img) ↔ 100 < s) := by
  refine ⟨?_, ?_, ?_⟩
  · unfold mkfsRun
    rw [if_pos (le_refl _)]
  · unfold mkfsRun SIMPLEFS_BLOCK_SIZE
    rw [if_neg (by omega)]
    exact ⟨_, rfl⟩
  · intro s
    unfold mkfsRun SIMPLEFS_BLOCK_SIZE
    constructor
    · rintro ⟨img, h⟩
      by_cases hc : s ≤ 100
      · rw [if_pos (by omega)] at h
        simp at h
      · omega
    · intro hs
      rw [if_neg (by omega)]
      exact ⟨_, rfl⟩

/-- C9: marking a bit used in the in-memory inode or block bitmap, running
the sync engine, and re-reading the bitmaps with the mount loader yields an
in-memory bitmap in which that bit is used, for every in-memory state, disk
content and bit index inside the bitmap region: the sync engine writes each
bitmap block to the same on-disk block index from which the mount loader
reads it. -/
theorem c9_sync_then_load (sbi : SbiMem) (disk : DiskBits) (i k : Nat)
    (hi : i < sbi.nr_ifree_blocks * BITS_PER_BLOCK)
    (hk : k < sbi.nr_bfree_blocks * BITS_PER_BLOCK) :
    load_ifree_bitmap sbi.nr_istore_blocks
        (simplefs_sync_fs (markIfreeUsed sbi i) disk) i = false ∧
    load_bfree_bitmap sbi.nr_istore_blocks sbi.nr_ifree_blocks
        (simplefs_sync_fs (markBfreeUsed sbi k) disk) k = false := by
  constructor
  · have h := load_ifree_sync (markIfreeUsed sbi i) disk i hi
    have h2 : (markIfreeUsed sbi i).ifree_bitmap i = false := by
      simp [markIfreeUsed, set_bit_used]
    exact h.trans h2
  · have h := load_bfree_sync (markBfreeUsed sbi k) disk k hk
    have h2 : (markBfreeUsed sbi k).bfree_bitmap k = false := by
      simp [markBfreeUsed, set_bit_used]
    exact h.trans h2

/-- C9 witness: a concrete mirror with two inode store blocks and one block
of each bitmap, bit 5 marked used in each bitmap. -/
theorem c9_sync_then_load_witness :
    load_ifree_bitmap 2
        (simplefs_sync_fs
          (markIfreeUsed ⟨101, 112, 2, 1, 1, 111, 96, fun _ => true, fun _ => true⟩ 5)
          (fun _ _ => true)) 5 = false ∧
    load_bfree_bitmap 2 1
        (simplefs_sync_fs
          (markBfreeUsed ⟨101, 112, 2, 1, 1, 111, 96, fun _ => true, fun _ => true⟩ 5)
          (fun _ _ => true)) 5 = false :=
  c9_sync_then_load ⟨101, 112, 2, 1, 1, 111, 96, fun _ => true, fun _ => true⟩
    (fun _ _ => true) 5 5 (by decide) (by decide)

/-- C10: for every inode number at or beyond the total inode count of the
mounted filesystem, the inode write-back operation returns 0 at once,
leaving the inode store untouched and reading or writing no block. -/
theorem c10_out_of_range_inode_ignored (ipb nr_inodes : Nat) (v : VfsInode) (disk : InodeDisk)
    (h : nr_inodes ≤ v.i_ino) :
    simplefs_write_inode ipb nr_inodes v disk = (0, disk, []) := by
  simp only [simplefs_write_inode]
  rw [if_pos h]

/-- C10 witness: writing back inode 7 of a filesystem with 3 inodes returns
0 and touches nothing. -/
theorem c10_out_of_range_inode_ignored_witness :
    simplefs_write_inode 2 3 ⟨7, 0, 0, 0, 0, 0, 0, 0, 0, 0, 0, []⟩
        (fun _ _ => ⟨0, 0, 0, 0, 0, 0, 0, 0, 0, 0, []⟩)
      = (0, fun _ _ => ⟨0, 0, 0, 0, 0, 0, 0, 0, 0, 0, []⟩, []) :=
  c10_out_of_range_inode_ignored 2 3 ⟨7, 0, 0, 0, 0, 0, 0, 0, 0, 0, 0, []⟩
    (fun _ _ => ⟨0, 0, 0, 0, 0, 0, 0, 0, 0, 0, []⟩) (by decide)

end SimpleFs
